import Mathlib

/-!
Shallow embedding of `src/ChainOfResponsbility.py`: a chain-of-responsibility
request pipeline with four handler classes.

Modelling choices, faithful to the Python source:
* `Request` carries `request_id`, the raw `_data` field (an `Option String`,
  since the `data` property also guards against an absent/`None` value), and
  `_client_ip`.  The `data` property is `self._data.strip() if self._data
  else ''`: Python truthiness of a string is "non-empty", and `strip` is
  embedded as `String.trim`.
* `Handler.handle` in the source is an abstract method whose body is `pass`;
  calling it through `super().handle(request)` therefore executes that `pass`
  body and returns `None`.  Results are embedded as `Option String`, with
  `none` standing for Python's `None`; `Handler.superHandle` embeds the
  abstract body.
* Each concrete `handle` method performs no assignment to `self` or to the
  request, so the state-passing embedding `handleS` returns, in every branch,
  the handler and request unchanged alongside the result.
* `set_next` mutates the handler's `next_handler` attribute and returns its
  argument; object identity and mutation are embedded by a store mapping a
  handler identity to its successor identity.
* The constructors of `IPFilteringHandler` and `CachingHandler` choose their
  configuration with `arg or default`: Python's `or` takes the default
  whenever the argument is falsy, i.e. `None` or an empty collection.
-/

namespace ChainOfResponsibility

/-- Embeds the `Request` class: `request_id`, the raw `_data` attribute
(`none` embeds Python `None`), and `_client_ip`. -/
structure Request where
  request_id : String
  rawData : Option String
  rawClientIp : String
deriving DecidableEq, Repr

/-- Python `str.strip()`: removes leading and trailing whitespace
characters.  Embedded structurally over the character list so that it is
kernel-computable. -/
def pyStrip (s : String) : String :=
  ⟨(((s.data.dropWhile Char.isWhitespace).reverse.dropWhile Char.isWhitespace).reverse)⟩

/-- The `data` property: `self._data.strip() if self._data else ''`.
A `none` or empty raw value is falsy, giving `''`; otherwise `strip`. -/
def Request.data (r : Request) : String :=
  match r.rawData with
  | none => ""
  | some s => if s = "" then "" else pyStrip s

/-- The `client_ip` property: returns `_client_ip` verbatim. -/
def Request.client_ip (r : Request) : String :=
  r.rawClientIp

/-- The handler object graph after construction and wiring: each concrete
handler class with its configuration and its (optional) `next_handler`. -/
inductive Handler where
  | dataValidation (next : Option Handler)
  | ipFiltering (blocked_ips : List String) (next : Option Handler)
  | caching (cache : List (String × String)) (next : Option Handler)
  | finalProcessing (next : Option Handler)

/-- The abstract `Handler.handle` body is `pass`, so calling it via
`super().handle(request)` returns Python `None`, embedded as `none`. -/
def Handler.superHandle (_ : Request) : Option String :=
  none

/-- `dict.get(key)`: the value for `key`, or `none` when absent. -/
def dictGet : List (String × String) → String → Option String
  | [], _ => none
  | (k, v) :: rest, key => if key = k then some v else dictGet rest key

/-- State-passing embedding of the four concrete `handle` methods.  Returns
the result together with the handler and request after the call; no branch
of any source method assigns to `self` or to the request, so every branch
returns them unchanged.  Branch by branch:
* `DataValidationHandler.handle`: `if not request.data` return the rejection;
  else `super().handle(request)` if a successor is set (which is `none`, the
  abstract `pass` body), else `"Validation Complete"`.
* `IPFilteringHandler.handle`: membership test on `blocked_ips`, then the
  same `super().handle` / `"IP Check Complete"` split.
* `CachingHandler.handle`: `if cached_response := self.cache.get(...)` is a
  truthiness test, so a cached empty string also counts as a miss; on a hit
  the cached value is returned at once, on a miss the same
  `super().handle` / `"Cache Check Complete"` split.
* `FinalProcessingHandler.handle`: always returns the formatted string. -/
def Handler.handleS : Handler → Request → Option String × Handler × Request
  | Handler.dataValidation next, r =>
    if r.data = "" then
      (some "Rejected: Invalid data format", Handler.dataValidation next, r)
    else
      ((match next with
        | some _ => Handler.superHandle r
        | none => some "Validation Complete"),
       Handler.dataValidation next, r)
  | Handler.ipFiltering blocked_ips next, r =>
    if blocked_ips.contains r.client_ip then
      (some ("Rejected: Blocked IP " ++ r.client_ip),
       Handler.ipFiltering blocked_ips next, r)
    else
      ((match next with
        | some _ => Handler.superHandle r
        | none => some "IP Check Complete"),
       Handler.ipFiltering blocked_ips next, r)
  | Handler.caching cache next, r =>
    ((match dictGet cache r.request_id with
      | some v =>
        if v = "" then
          match next with
          | some _ => Handler.superHandle r
          | none => some "Cache Check Complete"
        else some v
      | none =>
        match next with
        | some _ => Handler.superHandle r
        | none => some "Cache Check Complete"),
     Handler.caching cache next, r)
  | Handler.finalProcessing next, r =>
    (some ("Processed: " ++ r.request_id ++ " with data '" ++ r.data ++ "'"),
     Handler.finalProcessing next, r)

/-- The result of `handle`, as observed by a caller. -/
def Handler.handle (h : Handler) (r : Request) : Option String :=
  (h.handleS r).1

/-- `set_next` mutation model: a store maps each handler identity to the
identity of its current successor (`none` = no successor). -/
def NextStore : Type :=
  Nat → Option Nat

/-- `Handler.set_next`: sets the receiver's `next_handler` to the argument
and returns the argument, so chained calls continue from the argument. -/
def set_next (s : NextStore) (a b : Nat) : NextStore × Nat :=
  (fun x => if x = a then some b else s x, b)

/-- `IPFilteringHandler.__init__`: `blocked_ips or {"192.168.0.10", "10.0.0.1"}`. -/
def defaultBlockedIps : List String :=
  ["192.168.0.10", "10.0.0.1"]

/-- `CachingHandler.__init__` default: `{"123": "Cached Response for request 123"}`. -/
def defaultCache : List (String × String) :=
  [("123", "Cached Response for request 123")]

/-- The blocklist the `IPFilteringHandler` constructor stores:
`blocked_ips or default` takes the default when the argument is falsy
(`None` or an empty set). -/
def IPFilteringHandler.storedBlockedIps (blocked_ips : Option (List String)) : List String :=
  match blocked_ips with
  | none => defaultBlockedIps
  | some l => if l = [] then defaultBlockedIps else l

/-- The cache the `CachingHandler` constructor stores: `cache or default`
takes the default when the argument is falsy (`None` or an empty dict). -/
def CachingHandler.storedCache (cache : Option (List (String × String))) :
    List (String × String) :=
  match cache with
  | none => defaultCache
  | some c => if c = [] then defaultCache else c

/-- `processing_handler = FinalProcessingHandler()` (end of the wired chain). -/
def processing_handler : Handler :=
  Handler.finalProcessing none

/-- `cache_handler = CachingHandler()` after `set_next(processing_handler)`. -/
def cache_handler : Handler :=
  Handler.caching defaultCache (some processing_handler)

/-- `ip_handler = IPFilteringHandler()` after `set_next(cache_handler)`. -/
def ip_handler : Handler :=
  Handler.ipFiltering defaultBlockedIps (some cache_handler)

/-- `validation_handler = DataValidationHandler()` after `set_next(ip_handler)`:
the head of the wired demo chain. -/
def validation_handler : Handler :=
  Handler.dataValidation (some ip_handler)

/-- `Request("200", "Order: 5 units", "192.168.1.5")`. -/
def req200 : Request :=
  ⟨"200", some "Order: 5 units", "192.168.1.5"⟩

/-- `Request("201", "Order: 10 units", "192.168.0.10")`. -/
def req201 : Request :=
  ⟨"201", some "Order: 10 units", "192.168.0.10"⟩

/-- `Request("123", "Cached content", "192.168.1.8")`. -/
def req123 : Request :=
  ⟨"123", some "Cached content", "192.168.1.8"⟩

/-- `Request("999", "   ", "1.2.3.4")` (whitespace-only payload). -/
def req999 : Request :=
  ⟨"999", some "   ", "1.2.3.4"⟩

/-- Helper: no branch of any concrete `handle` method assigns to the handler
or to the request, so the post-call state equals the pre-call state. -/
theorem handleS_preserves_state (h : Handler) (r : Request) :
    (h.handleS r).2 = (h, r) := by
  cases h <;> simp only [Handler.handleS] <;> (first | rfl | (split <;> rfl))

/-- Claim C1: the spec says a concrete handler whose check passes and whose
successor is set returns `next.handle(request)`.  The code instead calls
`super().handle(request)`, the abstract `pass` body, which returns `None`:
at `Request("200", "Order: 5 units", "192.168.1.5")`, a
`DataValidationHandler` wired to a `FinalProcessingHandler` returns `none`,
not the successor's result. -/
theorem forwarding_returns_none_not_successor_result :
    Handler.handle (Handler.dataValidation (some processing_handler)) req200 = none ∧
    Handler.handle processing_handler req200 =
      some "Processed: 200 with data 'Order: 5 units'" ∧
    Handler.handle (Handler.dataValidation (some processing_handler)) req200 ≠
      Handler.handle processing_handler req200 := by
  refine ⟨rfl, rfl, ?_⟩
  decide

/-- Claim C2: the spec says `Request("200", "Order: 5 units", "192.168.1.5")`
through the wired chain yields `"Processed: 200 with data 'Order: 5 units'"`.
The code's chain head returns `none` (broken forwarding), never the processed
string; `FinalProcessingHandler` alone would produce it. -/
theorem chain_req200_yields_none :
    Handler.handle validation_handler req200 = none ∧
    Handler.handle validation_handler req200 ≠
      some "Processed: 200 with data 'Order: 5 units'" ∧
    Handler.handle processing_handler req200 =
      some "Processed: 200 with data 'Order: 5 units'" := by
  refine ⟨rfl, ?_, rfl⟩
  decide

/-- Claim C3: the spec says `Request("123", "Cached content", "192.168.1.8")`
through the wired chain yields the cached value.  The chain head returns
`none`: the request never reaches `CachingHandler` because forwarding is
broken.  The caching stage invoked directly does return the cached value
without forwarding, which is the intended short-circuit. -/
theorem chain_req123_yields_none_not_cached :
    Handler.handle validation_handler req123 = none ∧
    Handler.handle validation_handler req123 ≠
      some "Cached Response for request 123" ∧
    Handler.handle cache_handler req123 =
      some "Cached Response for request 123" := by
  refine ⟨rfl, ?_, rfl⟩
  decide

/-- Claim C4: the spec says `Request("201", "Order: 10 units", "192.168.0.10")`
through the wired chain yields `"Rejected: Blocked IP 192.168.0.10"`.  The
chain head returns `none`: the request never reaches `IPFilteringHandler`
because forwarding is broken.  The IP stage invoked directly does return the
rejection without forwarding. -/
theorem chain_req201_yields_none_not_rejection :
    Handler.handle validation_handler req201 = none ∧
    Handler.handle validation_handler req201 ≠
      some "Rejected: Blocked IP 192.168.0.10" ∧
    Handler.handle ip_handler req201 =
      some "Rejected: Blocked IP 192.168.0.10" := by
  refine ⟨rfl, ?_, rfl⟩
  decide

/-- Claim C5: for every request whose normalized payload is empty,
`DataValidationHandler` at the head of any chain returns
`"Rejected: Invalid data format"`, whatever the id, origin, or rest of the
chain; no later handler influences the result. -/
theorem dataValidationHandler_rejects_blank_payload (next : Option Handler)
    (r : Request) (h : r.data = "") :
    Handler.handle (Handler.dataValidation next) r =
      some "Rejected: Invalid data format" := by
  simp [Handler.handle, Handler.handleS, h]

/-- Witness for C5 at `Request("999", "   ", "1.2.3.4")` with the demo
chain's tail as successor. -/
theorem dataValidationHandler_rejects_blank_payload_witness :
    req999.data = "" ∧
    Handler.handle (Handler.dataValidation (some ip_handler)) req999 =
      some "Rejected: Invalid data format" :=
  ⟨by decide,
   dataValidationHandler_rejects_blank_payload (some ip_handler) req999 (by decide)⟩

/-- Claim C6: `FinalProcessingHandler.handle` performs no check and, for
every request and successor configuration, returns the formatted string with
the id and trimmed payload, never consulting the successor. -/
theorem finalProcessingHandler_always_processes (next : Option Handler)
    (r : Request) :
    Handler.handle (Handler.finalProcessing next) r =
      some ("Processed: " ++ r.request_id ++ " with data '" ++ r.data ++ "'") :=
  rfl

/-- Claim C7: `set_next` stores the argument as the receiver's successor and
returns the argument, so `a.set_next(b).set_next(c)` links a to b and b to c
(for distinct a and b); and a second `set_next` on the same handler replaces
the previous successor (last write wins). -/
theorem set_next_fluent_and_replaces (s : NextStore) (a b c : Nat)
    (hab : a ≠ b) :
    (set_next s a b).2 = b ∧
    (set_next (set_next s a b).1 (set_next s a b).2 c).1 a = some b ∧
    (set_next (set_next s a b).1 (set_next s a b).2 c).1 b = some c ∧
    (set_next (set_next s a b).1 a c).1 a = some c := by
  refine ⟨rfl, ?_, ?_, ?_⟩ <;> simp [set_next, hab]

/-- Witness for C7 with handler identities 0, 1, 2 and the empty store. -/
theorem set_next_fluent_and_replaces_witness :
    (0 : Nat) ≠ 1 ∧
    ((set_next (fun _ => none) 0 1).2 = 1 ∧
     (set_next (set_next (fun _ => none) 0 1).1
        (set_next (fun _ => none) 0 1).2 2).1 0 = some 1 ∧
     (set_next (set_next (fun _ => none) 0 1).1
        (set_next (fun _ => none) 0 1).2 2).1 1 = some 2 ∧
     (set_next (set_next (fun _ => none) 0 1).1 0 2).1 0 = some 2) :=
  ⟨by decide, set_next_fluent_and_replaces (fun _ => none) 0 1 2 (by decide)⟩

/-- Claim C8: `request_id` and `client_ip` return the constructor arguments
verbatim; `data` returns the stripped raw payload, and the empty string when
the raw payload is empty or absent.  The accessor is a total function. -/
theorem request_accessor_contract (i d ip : String) :
    (Request.mk i (some d) ip).request_id = i ∧
    (Request.mk i (some d) ip).client_ip = ip ∧
    (Request.mk i (some d) ip).data = pyStrip d ∧
    (Request.mk i none ip).data = "" ∧
    (Request.mk i (some "") ip).data = "" := by
  refine ⟨rfl, rfl, ?_, rfl, rfl⟩
  by_cases h : d = ""
  · subst h; rfl
  · simp [Request.data, h]

/-- Claim C9: `handle` neither mutates the handler (configuration and
successor link included) nor the request, and a second call on the same
handler and request returns the same result. -/
theorem handle_idempotent_and_pure (h : Handler) (r : Request) :
    (h.handleS r).2.1 = h ∧ (h.handleS r).2.2 = r ∧
    Handler.handle ((h.handleS r).2.1) ((h.handleS r).2.2) =
      Handler.handle h r := by
  refine ⟨?_, ?_, ?_⟩ <;> rw [handleS_preserves_state]

/-- Claim C10: the constructors select the built-in default whenever the
argument is falsy, so an empty blocklist or cache override is replaced by the
default and an empty configuration can never be stored. -/
theorem empty_config_installs_defaults :
    IPFilteringHandler.storedBlockedIps (some []) = defaultBlockedIps ∧
    CachingHandler.storedCache (some []) = defaultCache ∧
    IPFilteringHandler.storedBlockedIps none = defaultBlockedIps ∧
    CachingHandler.storedCache none = defaultCache ∧
    (∀ arg, IPFilteringHandler.storedBlockedIps arg ≠ []) ∧
    (∀ arg, CachingHandler.storedCache arg ≠ []) := by
  refine ⟨rfl, rfl, rfl, rfl, ?_, ?_⟩
  · intro arg
    cases arg with
    | none => decide
    | some l =>
      cases l with
      | nil => decide
      | cons x xs => simp [IPFilteringHandler.storedBlockedIps]
  · intro arg
    cases arg with
    | none => decide
    | some l =>
      cases l with
      | nil => decide
      | cons x xs => simp [CachingHandler.storedCache]

end ChainOfResponsibility
